import Mathlib

/-!
Verification of the survey-rs / inquire prompt engine against its
specification, as a shallow embedding in Lean 4.

Source files embedded:
- src/src/validator.rs — validator type aliases and the built-in
  validator macros (max_length, min_length, length, regex, parse_primitive).
- src/inquire/src/prompts/test.rs — the iterator-backed InputReader
  implementation used as the test double.

Parts of the repository that the claims depend on but whose code is not
available (the prompt run loop, the terminal backend session, the
Select/MultiSelect filtering logic and the CustomType submission flow) are
modelled from the specification; each such definition carries a doc comment
starting with "Modelled from the spec:".
-/

namespace Inquire

/-! ## Key model

Normalized representation of a single input event (spec section 3: tagged
union over printable character and named control keys). Only the
constructors the claims exercise are needed. -/

/-- Embeds the crate's Key enum (normalized key-event model): a printable
character, or a named control key. -/
inductive Key where
  | char (c : Char)
  | enter
  | escape
  | up
  | down
  | space
  deriving DecidableEq

/-- Embeds std::io::ErrorKind restricted to the variant used by the code. -/
inductive IOErrorKind where
  | UnexpectedEof
  deriving DecidableEq

/-- Embeds the crate's InquireError restricted to the variant used by the
iterator-backed InputReader: an I/O error with a kind and a message. -/
inductive InquireError where
  | io (kind : IOErrorKind) (msg : String)
  deriving DecidableEq

/-! ## Input reader (src/inquire/src/prompts/test.rs)

The iterator-backed InputReader: its state is the remaining key sequence,
and read_key is next() mapped through ok_or. -/

/-- Embeds read_key of the InputReader impl for iterators of keys in
src/inquire/src/prompts/test.rs: self.next().ok_or(InquireError::IO(
UnexpectedEof, "No more keys in input")). The iterator is embedded as the
list of its remaining items; the result carries the iterator's new state. -/
def read_key : List Key → Except InquireError (Key × List Key)
  | [] =>
    Except.error (InquireError.io IOErrorKind.UnexpectedEof "No more keys in input")
  | k :: ks => Except.ok (k, ks)

/-! ## Validators (src/src/validator.rs) -/

/-- Embeds the type alias StringValidator from src/src/validator.rs:
fn(answer: &str) -> Result<(), String>. -/
abbrev StringValidator := String → Except String Unit

/-- Modelled from the spec: the prompt engine's application of a validator
chain to a candidate answer ("ordered sequence of predicate functions;
evaluated in order, first failure short-circuits and its message is shown;
empty chain always passes"). The code driving the chain lives in the prompt
run loop, which is not among the available source files. -/
def runValidators : List StringValidator → String → Except String Unit
  | [], _ => Except.ok ()
  | v :: vs, a =>
    match v a with
    | Except.error m => Except.error m
    | Except.ok _ => runValidators vs a

/-- Embeds Rust's str::len as used by the length validator macros: the
length of a &str in Rust is its UTF-8 byte length, the sum of the UTF-8
encoded sizes of its characters, not the character count. -/
def rustStrLen (s : String) : Nat :=
  (s.data.map Char.utf8Size).sum

/-- Embeds the validator produced by the max_length! macro in
src/src/validator.rs: Ok when a.len() (the byte length) is at most the
threshold, Err(message) otherwise. -/
def max_length (n : Nat) (message : String) : StringValidator :=
  fun a => if rustStrLen a ≤ n then Except.ok () else Except.error message

/-- Embeds the validator produced by the min_length! macro in
src/src/validator.rs: Ok when a.len() (the byte length) is at least the
threshold, Err(message) otherwise. -/
def min_length (n : Nat) (message : String) : StringValidator :=
  fun a => if n ≤ rustStrLen a then Except.ok () else Except.error message

/-- Embeds the validator produced by the length! macro in
src/src/validator.rs: Ok when a.len() (the byte length) equals the
threshold, Err(message) otherwise. -/
def length (n : Nat) (message : String) : StringValidator :=
  fun a => if rustStrLen a = n then Except.ok () else Except.error message

/-! ## Parsing into i64 and CustomType submission -/

/-- Embeds Rust's str::parse::<i64> as invoked by the parse_primitive!
macro: an optional single leading sign, then one or more ASCII digits and
nothing else; the value must fit the i64 range. Any other character is an
invalid digit. -/
def parseI64 (s : String) : Except String Int :=
  match s.data with
  | [] => Except.error "cannot parse integer from empty string"
  | c :: rest =>
    let signed : Bool × List Char :=
      if c = '-' then (true, rest)
      else if c = '+' then (false, rest)
      else (false, c :: rest)
    if signed.2.isEmpty then Except.error "invalid digit found in string"
    else if signed.2.all Char.isDigit then
      let n : Nat := signed.2.foldl (fun acc d => acc * 10 + (d.toNat - 48)) 0
      if signed.1 then
        if n ≤ 2 ^ 63 then Except.ok (-(n : Int))
        else Except.error "number too small to fit in target type"
      else
        if n ≤ 2 ^ 63 - 1 then Except.ok (n : Int)
        else Except.error "number too large to fit in target type"
    else Except.error "invalid digit found in string"

/-- Embeds the validator produced by the parse_primitive! macro in
src/src/validator.rs at type i64: Ok when a.parse::<i64>() succeeds,
Err(message) otherwise (the parse error itself is dropped). The default
message is "Failure when parsing response to type i64". -/
def parse_primitive_i64 (message : String) : StringValidator :=
  fun a =>
    match parseI64 a with
    | Except.ok _ => Except.ok ()
    | Except.error _ => Except.error message

/-- Outcome of one submission attempt: either a typed answer or a
validation failure whose message goes to the single error-rendering
line. -/
inductive SubmissionResult (T : Type) where
  | submitted (t : T)
  | validationError (msg : String)
  deriving DecidableEq

/-- Modelled from the spec: CustomType submission ("on submission, first
runs the validator chain against the raw text, then attempts a
type-directed parse into T; a parse failure is reported as a validation
failure using the same error-rendering path"). The CustomType prompt code
itself is not among the available source files. -/
def customTypeSubmit {T : Type} (vs : List StringValidator)
    (parse : String → Except String T) (raw : String) : SubmissionResult T :=
  match runValidators vs raw with
  | Except.error m => SubmissionResult.validationError m
  | Except.ok _ =>
    match parse raw with
    | Except.error m => SubmissionResult.validationError m
    | Except.ok t => SubmissionResult.submitted t

/-- Modelled from the spec: the CustomType run loop over the successive
raw texts the user submits ("run does not terminate until the input is
corrected"): a validation failure keeps the loop going with the next
attempt; none means the attempts were exhausted without an answer, so the
run is still awaiting input. -/
def customTypeRun {T : Type} (vs : List StringValidator)
    (parse : String → Except String T) : List String → Option T
  | [] => none
  | raw :: rest =>
    match customTypeSubmit vs parse raw with
    | SubmissionResult.submitted t => some t
    | SubmissionResult.validationError _ => customTypeRun vs parse rest

/-! ## Select / MultiSelect filtered view -/

/-- Embeds OptionAnswer (imported by src/src/validator.rs; spec section 3):
a zero-based original index paired with a display value. -/
structure OptionAnswer where
  index : Nat
  value : String
  deriving DecidableEq

/-- Modelled from the spec: the indexed option list created when the option
list is supplied ("pairs a zero-based original index with a display
value"), with indices starting at i. The Select/MultiSelect prompt code is
not among the available source files. -/
def indexOptionsFrom : Nat → List String → List OptionAnswer
  | _, [] => []
  | i, v :: vs => ⟨i, v⟩ :: indexOptionsFrom (i + 1) vs

/-- Modelled from the spec: the full indexed option list, indices starting
at zero. -/
def indexOptions (opts : List String) : List OptionAnswer :=
  indexOptionsFrom 0 opts

/-- Modelled from the spec: the filtered view of Select/MultiSelect — the
configured filter predicate, applied to the filter text and each display
value over the indexed option list, preserving original relative order. -/
def filteredView (flt : String → String → Bool) (ft : String)
    (opts : List String) : List OptionAnswer :=
  (indexOptions opts).filter (fun o => flt ft o.value)

/-! ## Prompt run life cycle, terminal session and raw mode -/

/-- Modelled from the spec: the observable terminal-mode state — whether
raw mode is currently engaged, plus counters of how many times the session
was entered and released, to state "released exactly once". -/
structure Terminal where
  rawMode : Bool
  enters : Nat
  leaves : Nat
  deriving DecidableEq

/-- Modelled from the spec: entering the scoped raw-mode session engages
raw mode. -/
def terminalEnter (t : Terminal) : Terminal :=
  { t with rawMode := true, enters := t.enters + 1 }

/-- Modelled from the spec: releasing the session disengages raw mode and
restores the prior terminal mode. -/
def terminalLeave (t : Terminal) : Terminal :=
  { t with rawMode := false, leaves := t.leaves + 1 }

/-- Outcome of a prompt run: the typed answer, the distinct cancellation
outcome, or a fatal I/O error such as end of input. -/
inductive PromptOutcome (T : Type) where
  | submitted (t : T)
  | cancelled
  | ioError (e : InquireError)
  deriving DecidableEq

/-- Modelled from the spec: the shared prompt key-handling loop, here for a
text-valued prompt. One key is consumed per iteration: Escape cancels,
Enter submits when the validator chain passes and otherwise re-renders the
error and continues, a printable character edits the state, other keys
only change visible state; an exhausted input source is the fatal
end-of-input error of the input reader. -/
def promptLoop (vs : List StringValidator) :
    List Key → String → PromptOutcome String
  | [], _ =>
    PromptOutcome.ioError
      (InquireError.io IOErrorKind.UnexpectedEof "No more keys in input")
  | k :: ks, s =>
    match k with
    | Key.escape => PromptOutcome.cancelled
    | Key.enter =>
      match runValidators vs s with
      | Except.ok _ => PromptOutcome.submitted s
      | Except.error _ => promptLoop vs ks s
    | Key.char c => promptLoop vs ks (s.push c)
    | _ => promptLoop vs ks s

/-- Modelled from the spec: the blocking run operation — acquire the
terminal session (entering raw mode), drive the key-handling loop, and on
every exit path (submission, cancellation, or fatal I/O error) release the
session exactly once before returning. -/
def promptRun (vs : List StringValidator) (keys : List Key) (t : Terminal) :
    PromptOutcome String × Terminal :=
  let t1 := terminalEnter t
  match promptLoop vs keys "" with
  | PromptOutcome.submitted v => (PromptOutcome.submitted v, terminalLeave t1)
  | PromptOutcome.cancelled => (PromptOutcome.cancelled, terminalLeave t1)
  | PromptOutcome.ioError e => (PromptOutcome.ioError e, terminalLeave t1)

/-! ## Regex validator

The regex crate is an external collaborator; its compiler and matcher are
modelled here on the fragment the theorems use: patterns made of literal
characters, the dot wildcard and (flattened) groups. An unmatched group
parenthesis is a compile error, as in the crate; the other metacharacters
are outside the modelled fragment and also mapped to a compile failure. -/

/-- Compiled pattern element: a literal character or the dot wildcard. -/
inductive RegexToken where
  | lit (c : Char)
  | dot
  deriving DecidableEq

/-- Metacharacters of the regex language outside the modelled fragment. -/
def regexMeta : List Char :=
  ['*', '+', '?', '|', '[', ']', '\\', '^', '$', '{', '}']

/-- Modelled from the regex crate interface: pattern compilation over the
fragment — literal characters and dots become tokens, group parentheses
must balance (an unmatched one is a compile error, as in the crate), other
metacharacters are not part of the fragment. The Nat argument is the
current group-nesting depth. -/
def regexParse : List Char → Nat → Option (List RegexToken)
  | [], 0 => some []
  | [], _ + 1 => none
  | c :: rest, depth =>
    if c = '(' then regexParse rest (depth + 1)
    else if c = ')' then
      match depth with
      | 0 => none
      | d + 1 => regexParse rest d
    else if c = '.' then
      (regexParse rest depth).map (fun ts => RegexToken.dot :: ts)
    else if regexMeta.contains c then none
    else (regexParse rest depth).map (fun ts => RegexToken.lit c :: ts)

/-- Modelled from the regex crate interface: Regex::new — compile the whole
pattern at depth zero; none is the crate's compile error. -/
def regexCompile (pattern : String) : Option (List RegexToken) :=
  regexParse pattern.data 0

/-- Whether the token sequence matches a prefix of the character list. -/
def tokensMatchAt : List RegexToken → List Char → Bool
  | [], _ => true
  | _ :: _, [] => false
  | RegexToken.lit c :: ts, x :: xs => c == x && tokensMatchAt ts xs
  | RegexToken.dot :: ts, _ :: xs => tokensMatchAt ts xs

/-- Modelled from the regex crate interface: is_match — unanchored search,
true when the token sequence matches starting at some position. -/
def regexIsMatch (ts : List RegexToken) : List Char → Bool
  | [] => tokensMatchAt ts []
  | x :: xs => tokensMatchAt ts (x :: xs) || regexIsMatch ts xs

/-- Observable outcome of calling a validator closure: the two Result
values, or a panic (an unwound call that returns no Result at all). -/
inductive ValidatorCall where
  | ok
  | err (msg : String)
  | panicked (msg : String)
  deriving DecidableEq

/-- The message of the panic raised by unwrapping a failed Result. -/
def regexPanicMsg : String := "called Result::unwrap() on an Err value"

/-- Embeds the body of the closure produced by the regex! macro in
src/src/validator.rs: every call evaluates Regex::new(pattern) anew and
unwraps it — a pattern that fails to compile therefore panics at call
time, on any input — and otherwise answers Ok when is_match holds and
Err(message) when it does not. -/
def regexValidatorCall (pattern message : String) (a : String) :
    ValidatorCall :=
  match regexCompile pattern with
  | none => ValidatorCall.panicked regexPanicMsg
  | some ts =>
    if regexIsMatch ts a.data then ValidatorCall.ok
    else ValidatorCall.err message

/-- Embeds the expansion of the regex! macro: constructing the validator
only builds the closure — the pattern is not compiled at construction, so
construction cannot fail; all behaviour happens at call time in
regexValidatorCall. -/
def mkRegexValidator (pattern message : String) : String → ValidatorCall :=
  fun a => regexValidatorCall pattern message a

end Inquire

namespace Inquire

/-- Claim C2: an iterator-backed input reader whose underlying key sequence
is exhausted answers the next read_key call with a fatal I/O error
signalling end of input, not a key. -/
theorem read_key_exhausted_is_eof :
    read_key [] =
      Except.error (InquireError.io IOErrorKind.UnexpectedEof "No more keys in input") :=
  rfl

/-- Claim C3: on a non-exhausted key sequence, read_key returns the first
key of the sequence and leaves exactly the rest as the new state: one key
is consumed per call, none buffered, skipped or read ahead. -/
theorem read_key_consumes_exactly_one (k : Key) (ks : List Key) :
    read_key (k :: ks) = Except.ok (k, ks) :=
  rfl

/-- Concrete instance of read_key_consumes_exactly_one on a two-key
sequence. -/
theorem read_key_consumes_exactly_one_witness :
    read_key [Key.enter, Key.escape] = Except.ok (Key.enter, [Key.escape]) :=
  read_key_consumes_exactly_one Key.enter [Key.escape]

/-- Claim C4: validators are applied in the order supplied and the first
failing validator short-circuits the chain: when every validator before v
passes and v fails with message m, the whole chain reports m, whatever the
validators after v are (they are never consulted). Instantiating pre = [],
post = [B] and pre = [A], post = [] gives the two scenarios of the claim. -/
theorem validator_chain_first_failure (pre post : List StringValidator)
    (v : StringValidator) (a m : String)
    (hpre : ∀ w ∈ pre, w a = Except.ok ()) (hv : v a = Except.error m) :
    runValidators (pre ++ v :: post) a = Except.error m := by
  induction pre with
  | nil =>
    simp only [List.nil_append, runValidators, hv]
  | cons w ws ih =>
    have hw : w a = Except.ok () := hpre w (List.mem_cons_self w ws)
    simp only [List.cons_append, runValidators, hw]
    exact ih (fun u hu => hpre u (List.mem_cons_of_mem w hu))

/-- Concrete instances of validator_chain_first_failure: with chain
[A fails, B passes] the reported message is A's, with [A passes, B fails]
it is B's. -/
theorem validator_chain_first_failure_witness :
    runValidators [fun _ => Except.error "A", fun _ => Except.ok ()] "x" =
      Except.error "A" ∧
    runValidators [fun _ => Except.ok (), fun _ => Except.error "B"] "x" =
      Except.error "B" := by
  constructor
  · exact validator_chain_first_failure [] [fun _ => Except.ok ()]
      (fun _ => Except.error "A") "x" "A" (by simp) rfl
  · exact validator_chain_first_failure [fun _ => Except.ok ()] []
      (fun _ => Except.error "B") "x" "B" (by simp) rfl

/-- Claim C5: the empty validator chain accepts every candidate answer. -/
theorem empty_validator_chain_passes (a : String) :
    runValidators [] a = Except.ok () :=
  rfl

/-- Concrete instance of empty_validator_chain_passes. -/
theorem empty_validator_chain_passes_witness :
    runValidators [] "anything" = Except.ok () :=
  empty_validator_chain_passes "anything"

/-- Claim C9: the built-in length-bound validators measure the UTF-8 byte
length of the answer, not its character count: max_length passes exactly
when the byte length is at most the bound (min_length and length
analogously), and the one-character string "é", which encodes to two
bytes, is rejected by max_length 1 even though its character count is 1. -/
theorem length_validators_use_byte_length :
    (∀ n msg a, max_length n msg a = Except.ok () ↔ rustStrLen a ≤ n) ∧
    (∀ n msg a, min_length n msg a = Except.ok () ↔ n ≤ rustStrLen a) ∧
    (∀ n msg a, length n msg a = Except.ok () ↔ rustStrLen a = n) ∧
    ("é".length ≤ 1 ∧ (∃ c ∈ "é".data, 1 < c.utf8Size) ∧
      max_length 1 "too long" "é" = Except.error "too long") := by
  refine ⟨?_, ?_, ?_, ?_, ?_, ?_⟩
  · intro n msg a
    unfold max_length
    split <;> simp_all
  · intro n msg a
    unfold min_length
    split <;> simp_all
  · intro n msg a
    unfold length
    split <;> simp_all
  · decide
  · exact ⟨'é', by decide, by decide⟩
  · rfl

/-- Concrete instance of length_validators_use_byte_length: with a bound
of two bytes the same string "é" is accepted. -/
theorem length_validators_use_byte_length_witness :
    max_length 2 "too long" "é" = Except.ok () :=
  (length_validators_use_byte_length.1 2 "too long" "é").mpr (by decide)

/-- Claim C6: CustomType submission runs the validator chain on the raw
text first (a chain failure preempts the parse), then parses; a parse
failure is reported as a validation failure through the same path, never
as an answer. Concretely, at type i64 the input "12a" fails to parse, the
parse_primitive validator rejects it with the default message, submitting
only "12a" never terminates the run, and the run terminates once the
input is corrected to "123". -/
theorem custom_type_validates_then_parses :
    (∀ (T : Type) (vs : List StringValidator) (parse : String → Except String T)
        (raw m : String), runValidators vs raw = Except.error m →
        customTypeSubmit vs parse raw = SubmissionResult.validationError m) ∧
    (∀ (T : Type) (vs : List StringValidator) (parse : String → Except String T)
        (raw m : String), runValidators vs raw = Except.ok () →
        parse raw = Except.error m →
        customTypeSubmit vs parse raw = SubmissionResult.validationError m) ∧
    customTypeSubmit [] parseI64 "12a" =
      SubmissionResult.validationError "invalid digit found in string" ∧
    parse_primitive_i64 "Failure when parsing response to type i64" "12a" =
      Except.error "Failure when parsing response to type i64" ∧
    customTypeRun [] parseI64 ["12a"] = none ∧
    customTypeRun [] parseI64 ["12a", "123"] = some 123 := by
  refine ⟨?_, ?_, rfl, rfl, rfl, rfl⟩
  · intro T vs parse raw m h
    unfold customTypeSubmit
    rw [h]
  · intro T vs parse raw m hok hparse
    unfold customTypeSubmit
    rw [hok, hparse]

/-- Concrete instances of custom_type_validates_then_parses: a failing
validator preempts the parse, and a parse failure surfaces as a
validation failure. -/
theorem custom_type_validates_then_parses_witness :
    customTypeSubmit [fun _ => Except.error "chain says no"] parseI64 "12a" =
      SubmissionResult.validationError "chain says no" ∧
    customTypeSubmit [] parseI64 "9x" =
      SubmissionResult.validationError "invalid digit found in string" :=
  ⟨custom_type_validates_then_parses.1 Int [fun _ => Except.error "chain says no"]
      parseI64 "12a" "chain says no" rfl,
   custom_type_validates_then_parses.2.1 Int [] parseI64 "9x"
      "invalid digit found in string" rfl rfl⟩

/-- Every element of an indexed option list starting at i has index at
least i, and its value is the original list's entry at the offset of its
index from i. -/
theorem indexOptionsFrom_mem {i : Nat} {vs : List String} {o : OptionAnswer}
    (h : o ∈ indexOptionsFrom i vs) :
    i ≤ o.index ∧ vs.get? (o.index - i) = some o.value := by
  induction vs generalizing i with
  | nil => simp [indexOptionsFrom] at h
  | cons v vs ih =>
    simp only [indexOptionsFrom, List.mem_cons] at h
    rcases h with rfl | h
    · simp
    · obtain ⟨hle, hget⟩ := ih h
      refine ⟨by omega, ?_⟩
      have hidx : o.index - i = (o.index - (i + 1)) + 1 := by omega
      rw [hidx, List.get?_cons_succ]
      exact hget

/-- The indices of an indexed option list are strictly increasing. -/
theorem indexOptionsFrom_pairwise (i : Nat) (vs : List String) :
    (indexOptionsFrom i vs).Pairwise (fun a b => a.index < b.index) := by
  induction vs generalizing i with
  | nil => exact List.Pairwise.nil
  | cons v vs ih =>
    refine List.Pairwise.cons ?_ (ih (i + 1))
    intro o ho
    have hle := (indexOptionsFrom_mem ho).1
    simp only
    omega

/-- Claim C7: for every option list and every filter predicate, the
filtered view is a subsequence of the indexed option list, its original
indices are strictly increasing, and every element's index is a valid
index into the original, unfiltered option list, at which the original
list holds exactly that element's display value. -/
theorem filtered_view_is_ordered_subsequence (flt : String → String → Bool)
    (ft : String) (opts : List String) :
    List.Sublist (filteredView flt ft opts) (indexOptions opts) ∧
    (filteredView flt ft opts).Pairwise (fun a b => a.index < b.index) ∧
    ∀ o ∈ filteredView flt ft opts,
      o.index < opts.length ∧ opts.get? o.index = some o.value := by
  refine ⟨List.filter_sublist _, ?_, ?_⟩
  · exact (indexOptionsFrom_pairwise 0 opts).filter _
  · intro o ho
    have ho' : o ∈ indexOptions opts := List.mem_of_mem_filter ho
    have h := (indexOptionsFrom_mem ho').2
    rw [Nat.sub_zero] at h
    have hlt := List.get?_eq_some.mp h
    exact ⟨hlt.1, h⟩

/-- Concrete instance of filtered_view_is_ordered_subsequence: filtering
"green" out of three options keeps original indices 0 and 2, strictly
increasing. -/
theorem filtered_view_is_ordered_subsequence_witness :
    filteredView (fun _ v => !(v == "green")) "" ["red", "green", "blue"] =
      [⟨0, "red"⟩, ⟨2, "blue"⟩] ∧
    (filteredView (fun _ v => !(v == "green")) "" ["red", "green", "blue"]).Pairwise
      (fun a b => a.index < b.index) :=
  ⟨rfl, (filtered_view_is_ordered_subsequence
      (fun _ v => !(v == "green")) "" ["red", "green", "blue"]).2.1⟩

/-- Claim C1: however the run returns — submission, validation-related
abort, cancellation, or error (including end of input) — raw mode is
disengaged before control returns to the caller, and the session is
released exactly once. -/
theorem raw_mode_released_on_return (vs : List StringValidator)
    (keys : List Key) (t : Terminal) :
    (promptRun vs keys t).2.rawMode = false ∧
    (promptRun vs keys t).2.leaves = t.leaves + 1 := by
  unfold promptRun
  cases promptLoop vs keys "" <;> simp [terminalLeave, terminalEnter]

/-- Concrete instances of raw_mode_released_on_return: raw mode is off
after a run ending in cancellation and after one that exhausts its input
with an I/O error. -/
theorem raw_mode_released_on_return_witness :
    (promptRun [] [Key.escape] ⟨false, 0, 0⟩).2.rawMode = false ∧
    (promptRun [] [Key.char 'q'] ⟨false, 0, 0⟩).2.rawMode = false :=
  ⟨(raw_mode_released_on_return [] [Key.escape] ⟨false, 0, 0⟩).1,
   (raw_mode_released_on_return [] [Key.char 'q'] ⟨false, 0, 0⟩).1⟩

/-- A key sequence ending in Escape drives the loop either to the
cancellation outcome or to an earlier submission, never to an I/O
error. -/
theorem promptLoop_escape_last (vs : List StringValidator) (ks : List Key)
    (s : String) :
    promptLoop vs (ks ++ [Key.escape]) s = PromptOutcome.cancelled ∨
    ∃ v, promptLoop vs (ks ++ [Key.escape]) s = PromptOutcome.submitted v := by
  induction ks generalizing s with
  | nil => exact Or.inl rfl
  | cons k ks ih =>
    cases k with
    | escape => exact Or.inl rfl
    | enter =>
      simp only [List.cons_append, promptLoop]
      cases hrv : runValidators vs s with
      | ok u => exact Or.inr ⟨s, rfl⟩
      | error m => exact ih s
    | char c =>
      simp only [List.cons_append, promptLoop]
      exact ih (s.push c)
    | up =>
      simp only [List.cons_append, promptLoop]
      exact ih s
    | down =>
      simp only [List.cons_append, promptLoop]
      exact ih s
    | space =>
      simp only [List.cons_append, promptLoop]
      exact ih s

/-- Claim C8: for every finite key sequence ending in a cancel key with no
prior submission, the run returns the cancellation outcome — never a
partial answer or an error — and the terminal session is released exactly
once, leaving raw mode disengaged. -/
theorem cancel_key_yields_cancellation (vs : List StringValidator)
    (ks : List Key) (t : Terminal)
    (hns : ∀ v, (promptRun vs (ks ++ [Key.escape]) t).1 ≠
      PromptOutcome.submitted v) :
    (promptRun vs (ks ++ [Key.escape]) t).1 = PromptOutcome.cancelled ∧
    (promptRun vs (ks ++ [Key.escape]) t).2.leaves = t.leaves + 1 ∧
    (promptRun vs (ks ++ [Key.escape]) t).2.rawMode = false := by
  rcases promptLoop_escape_last vs ks "" with h | ⟨v, h⟩
  · unfold promptRun
    rw [h]
    simp [terminalLeave, terminalEnter]
  · exact absurd (by unfold promptRun; rw [h]) (hns v)

/-- Concrete instance of cancel_key_yields_cancellation: typing a
character and then Escape cancels, with exactly one release of the
session. -/
theorem cancel_key_yields_cancellation_witness :
    (promptRun [] [Key.char 'a', Key.escape] ⟨false, 0, 0⟩).1 =
      PromptOutcome.cancelled ∧
    (promptRun [] [Key.char 'a', Key.escape] ⟨false, 0, 0⟩).2.leaves = 1 := by
  have h := cancel_key_yields_cancellation [] [Key.char 'a'] ⟨false, 0, 0⟩
    (by intro v hv; simp [promptRun, promptLoop] at hv)
  exact ⟨h.1, h.2.1⟩

/-- Claim C10: the regex validator compiles its pattern inside the closure
and unwraps the result: the syntactically invalid pattern "(" makes the
validator panic when called, on every input, rather than return a
validation error (and construction itself cannot fail, since it only
builds the closure); for a pattern that compiles, the call returns Ok
exactly when the input matches and Err with the configured message exactly
when it does not. -/
theorem regex_validator_unwraps_at_call (msg : String) :
    regexCompile "(" = none ∧
    (∀ a : String,
      mkRegexValidator "(" msg a = ValidatorCall.panicked regexPanicMsg) ∧
    (∀ pattern ts, regexCompile pattern = some ts → ∀ a : String,
      (mkRegexValidator pattern msg a = ValidatorCall.ok ↔
        regexIsMatch ts a.data = true) ∧
      (mkRegexValidator pattern msg a = ValidatorCall.err msg ↔
        regexIsMatch ts a.data = false)) := by
  refine ⟨rfl, fun a => rfl, ?_⟩
  intro pattern ts h a
  unfold mkRegexValidator regexValidatorCall
  rw [h]
  cases hm : regexIsMatch ts a.data <;> simp [hm]

/-- Concrete instances of regex_validator_unwraps_at_call: the invalid
pattern "(" panics on a concrete input, and the valid pattern "ab"
accepts "xaby" and rejects "xy". -/
theorem regex_validator_unwraps_at_call_witness :
    mkRegexValidator "(" "bad" "x" = ValidatorCall.panicked regexPanicMsg ∧
    mkRegexValidator "ab" "no match" "xaby" = ValidatorCall.ok ∧
    mkRegexValidator "ab" "no match" "xy" = ValidatorCall.err "no match" :=
  ⟨(regex_validator_unwraps_at_call "bad").2.1 "x",
   ((regex_validator_unwraps_at_call "no match").2.2 "ab"
      [RegexToken.lit 'a', RegexToken.lit 'b'] rfl "xaby").1.mpr rfl,
   ((regex_validator_unwraps_at_call "no match").2.2 "ab"
      [RegexToken.lit 'a', RegexToken.lit 'b'] rfl "xy").2.mpr rfl⟩

end Inquire
